import Mathlib

/-!
Verification of the checkpoint and recovery core of the kuzu-swift embedded
graph database, shallowly embedded from
`src/Sources/cxx-kuzu/kuzu/src/storage/checkpointer.cpp` and
`src/Sources/cxx-kuzu/kuzu/src/main/database.cpp`.

Components whose implementation is not among the sampled sources (the page
manager, shadow file, WAL, and the database-header helper methods) are
modelled from the specification; each such definition carries a doc comment
saying so.
-/

namespace Kuzu

/-- Sentinel page index, `common::INVALID_PAGE_IDX` in the source
(the maximum value of the 32-bit page index type). -/
def INVALID_PAGE_IDX : Nat := 4294967295

/-- Modelled from the spec: pages are fixed-size; the constant
`common::KUZU_PAGE_SIZE` is not among the sampled sources. It is only used
as the byte multiplier for seeks during recovery. -/
def KUZU_PAGE_SIZE : Nat := 4096

/-- Fixed page index holding the database header,
`common::StorageConstants::DB_HEADER_PAGE_IDX` (page 0 per the spec). -/
def DB_HEADER_PAGE_IDX : Nat := 0

/-- A contiguous run of fixed-size pages holding one serialized artifact. -/
structure PageRange where
  startPageIdx : Nat
  numPages : Nat
deriving DecidableEq, Repr

/-- A page range is valid when its start index is not the sentinel. -/
def PageRange.isValid (r : PageRange) : Bool :=
  r.startPageIdx != INVALID_PAGE_IDX

/-- The page indices covered by a range. -/
def PageRange.pages (r : PageRange) : List Nat :=
  (List.range r.numPages).map (fun i => r.startPageIdx + i)

/-- The database header: the fixed-location root record naming the current
catalog and metadata page ranges. -/
structure DatabaseHeader where
  catalogPageRange : PageRange
  metadataPageRange : PageRange
deriving DecidableEq, Repr

/-- Abstract content of one on-disk page: either a serialized database
header or opaque data identified by a tag. -/
inductive PageContent where
  | headerPage (h : DatabaseHeader)
  | dataPage (tag : Nat)
deriving DecidableEq, Repr

/-- Observable events emitted by the checkpoint path; used to state ordering
and frame properties of the orchestration code. -/
inductive Ev where
  | flushStorage
  | serializeCatalogToWriter
  | serializeMetadataToWriter
  | estimateAllocatorPages (est : Nat)
  | allocateRange (start n : Nat)
  | serializeAllocatorToWriter (freeListSnapshot : List Nat)
  | flushWriterToShadow (start n : Nat)
  | freeRange (start n : Nat)
  | writeHeaderShadow
  | flushShadowFile
  | logCheckpointWAL
  | applyShadowEv
  | clearWAL
  | clearShadowFile
  | finalizeCkpt
  | removeEvicted
deriving DecidableEq, Repr

/-- Modelled from the spec (§4.1): the page manager / free-space manager.
Its own source file is not among the sampled sources. It tracks the
allocation frontier `numPages` (pages at or beyond the frontier are fresh
and free), the free list of previously released pages, the pages freed
during the in-progress checkpoint (not reusable until commit or rollback),
and the changed-since-last-checkpoint flag. -/
structure PageManager where
  numPages : Nat
  freeList : List Nat
  freedThisCheckpoint : List Nat
  changed : Bool
deriving DecidableEq, Repr

/-- Modelled from the spec (§4.1): `allocatePageRange(n)` returns a fresh
contiguous range of `n` free pages at the allocation frontier, marking them
used and marking the allocator changed. -/
def PageManager.allocatePageRange (pm : PageManager) (n : Nat) :
    PageRange × PageManager × List Ev :=
  (⟨pm.numPages, n⟩,
   { pm with numPages := pm.numPages + n, changed := true },
   [Ev.allocateRange pm.numPages n])

/-- Modelled from the spec (§4.1): releasing a page range adds its pages to
the free list, records them as freed by the in-progress checkpoint, and
marks the allocator changed. -/
def PageManager.freePageRange (pm : PageManager) (r : PageRange) :
    PageManager × List Ev :=
  ({ pm with freeList := pm.freeList ++ r.pages,
             freedThisCheckpoint := pm.freedThisCheckpoint ++ r.pages,
             changed := true },
   [Ev.freeRange r.startPageIdx r.numPages])

/-- Modelled from the spec: the number of free-list entries that fit on one
serialized page of the free-space map. -/
def FREE_ENTRIES_PER_PAGE : Nat := 512

/-- Modelled from the spec (§4.1): an upper bound on the number of pages the
allocator's own serialized form requires given its current free/used state. -/
def PageManager.estimatePagesNeededForSerialize (pm : PageManager) : Nat :=
  pm.freeList.length / FREE_ENTRIES_PER_PAGE + 1

/-- Modelled from the spec (§4.3, §8): the storage layer freeing a set of
pages during a checkpoint attempt (recorded, not yet reusable). -/
def PageManager.freePagesOp (pm : PageManager) (S : List Nat) : PageManager :=
  { pm with freeList := pm.freeList ++ S,
            freedThisCheckpoint := pm.freedThisCheckpoint ++ S,
            changed := true }

/-- Modelled from the spec (§4.3 rollback): un-free every page tentatively
freed by the in-progress checkpoint attempt. -/
def PageManager.rollbackFrees (pm : PageManager) : PageManager :=
  { pm with
      freeList := pm.freeList.filter (fun p => decide (p ∉ pm.freedThisCheckpoint)),
      freedThisCheckpoint := [] }

/-- Modelled from the spec (§3, §6): the catalog is opaque to the core; only
its changed-since-last-checkpoint flag and the page count of its serialized
form are relevant here. -/
structure Catalog where
  changedFlag : Bool
  numSerializedPages : Nat
deriving DecidableEq, Repr

/-- One staged page in the shadow file: the original page index it will
replace, whether the original content was skipped on creation, and the
staged content. -/
structure ShadowEntry where
  originalPageIdx : Nat
  skipRead : Bool
  content : PageContent
deriving DecidableEq, Repr

/-- Modelled from the spec (§4.2): the shadow file stages replacement pages
keyed by original page index, with at most one staged buffer per original
page per checkpoint cycle. -/
structure ShadowFile where
  staged : List ShadowEntry
deriving DecidableEq, Repr

/-- The original page indices that currently have a staged shadow copy. -/
def ShadowFile.keys (sf : ShadowFile) : List Nat :=
  sf.staged.map (fun e => e.originalPageIdx)

/-- Modelled from the spec (§4.2):
`createShadowVersionIfNecessaryAndPinPage` followed by writing the buffer.
A first touch creates the staged page (recording the skip-read flag);
a repeated touch reuses the existing staged buffer. -/
def ShadowFile.stageWrite (sf : ShadowFile) (idx : Nat) (skipRead : Bool)
    (c : PageContent) : ShadowFile :=
  if idx ∈ sf.keys then
    ⟨sf.staged.map (fun e =>
        if e.originalPageIdx = idx then { e with content := c } else e)⟩
  else ⟨sf.staged ++ [⟨idx, skipRead, c⟩]⟩

/-- Modelled from the spec (§4.2): `InMemFileWriter::flush` staging every
page of a freshly allocated range; freshly allocated pages have no original
content to preserve, so they are staged with skip-read. -/
def ShadowFile.stageRange (sf : ShadowFile) (r : PageRange) : ShadowFile :=
  r.pages.foldl (fun acc p => acc.stageWrite p true (PageContent.dataPage p)) sf

/-- Modelled from the spec (§3 WAL): an append-only durable log with a size
counter and a distinguished checkpoint record. -/
structure WALModel where
  fileSize : Nat
  hasCheckpointRecord : Bool
deriving DecidableEq, Repr

/-- The in-process state seen by the checkpointer: the live header, catalog,
page manager, shadow file, WAL, whether dirty table data exists, the page
count of the storage metadata's serialized form, and the database file. -/
structure CkptState where
  isInMemory : Bool
  header : DatabaseHeader
  catalog : Catalog
  pm : PageManager
  shadow : ShadowFile
  wal : WALModel
  storageDirty : Bool
  metadataNumPages : Nat
  diskPages : Nat → PageContent

/-- Applying staged shadow entries onto the database file, in staging order:
each staged page's content overwrites its original location. -/
def applyShadowEntries : List ShadowEntry → (Nat → PageContent) → Nat → PageContent
  | [], d => d
  | e :: rest, d =>
      applyShadowEntries rest (fun q => if q = e.originalPageIdx then e.content else d q)

/-- Modelled from the spec (`DatabaseHeader::updateCatalogPageRange`; the
database-header source file is not among the sampled sources): release the
previous catalog range through the allocator, if valid, and install the new
one. -/
def DatabaseHeader.updateCatalogPageRange (hdr : DatabaseHeader)
    (pm : PageManager) (r : PageRange) : DatabaseHeader × PageManager × List Ev :=
  if hdr.catalogPageRange.isValid then
    let res := pm.freePageRange hdr.catalogPageRange
    ({ hdr with catalogPageRange := r }, res.1, res.2)
  else
    ({ hdr with catalogPageRange := r }, pm, [])

/-- Modelled from the spec (`DatabaseHeader::freeMetadataPageRange`; the
database-header source file is not among the sampled sources): release the
previous metadata range through the allocator, if valid. -/
def DatabaseHeader.freeMetadataPageRange (hdr : DatabaseHeader)
    (pm : PageManager) : PageManager × List Ev :=
  if hdr.metadataPageRange.isValid then pm.freePageRange hdr.metadataPageRange
  else (pm, [])

namespace Checkpointer

/-- Modelled from the spec (§4.3 checkpointStorage): flush dirty table data
to pages via the allocator and report whether any page actually changed; the
storage manager's own checkpoint routine is not among the sampled sources.
Flushing dirty data allocates through the page manager, marking it changed. -/
def checkpointStorage (s : CkptState) : Bool × CkptState :=
  if s.storageDirty then
    (true, { s with storageDirty := false, pm := { s.pm with changed := true } })
  else
    (false, s)

/-- Embeds `Checkpointer::serializeCatalog` (checkpointer.cpp lines 27-35):
serialize the catalog into an in-memory writer, then flush the writer, which
allocates a page range through the page allocator and stages the pages in
the shadow file. -/
def serializeCatalog (s : CkptState) : PageRange × CkptState × List Ev :=
  let alloc := s.pm.allocatePageRange s.catalog.numSerializedPages
  let r := alloc.1
  (r,
   { s with pm := alloc.2.1, shadow := s.shadow.stageRange r },
   [Ev.serializeCatalogToWriter] ++ alloc.2.2 ++
     [Ev.flushWriterToShadow r.startPageIdx r.numPages])

/-- Embeds `Checkpointer::serializeMetadata` (checkpointer.cpp lines 37-63):
serialize the storage metadata into an in-memory writer; estimate the pages
the page manager needs for its own serialization; allocate the metadata
pages plus the estimated allocator pages as one contiguous range; serialize
the page manager into the same writer; flush the writer into the allocated
range via the shadow file. -/
def serializeMetadata (s : CkptState) : PageRange × CkptState × List Ev :=
  let pagesForPageManager := s.pm.estimatePagesNeededForSerialize
  let alloc := s.pm.allocatePageRange (s.metadataNumPages + pagesForPageManager)
  let allocatedPages := alloc.1
  (allocatedPages,
   { s with pm := alloc.2.1, shadow := s.shadow.stageRange allocatedPages },
   [Ev.serializeMetadataToWriter, Ev.estimateAllocatorPages pagesForPageManager] ++
     alloc.2.2 ++
     [Ev.serializeAllocatorToWriter alloc.2.1.freeList,
      Ev.flushWriterToShadow allocatedPages.startPageIdx allocatedPages.numPages])

/-- Embeds the catalog half of `Checkpointer::serializeCatalogAndMetadata`
(checkpointer.cpp lines 127-132): the catalog is re-serialized when its page
range is invalid or the catalog changed since the last checkpoint. -/
def catalogPhase (hdr : DatabaseHeader) (s : CkptState) :
    DatabaseHeader × CkptState × List Ev :=
  if (hdr.catalogPageRange.startPageIdx == INVALID_PAGE_IDX) || s.catalog.changedFlag then
    let ser := serializeCatalog s
    let upd := hdr.updateCatalogPageRange ser.2.1.pm ser.1
    (upd.1, { ser.2.1 with pm := upd.2.1 }, ser.2.2 ++ upd.2.2)
  else
    (hdr, s, [])

/-- Embeds the metadata half of `Checkpointer::serializeCatalogAndMetadata`
(checkpointer.cpp lines 133-155): metadata is re-serialized when its page
range is invalid, storage changed, the catalog changed, or the page manager
changed; the previous metadata range is freed through the allocator before
`serializeMetadata` runs. -/
def metadataPhase (hdr : DatabaseHeader) (hasStorageChanges : Bool)
    (s : CkptState) : DatabaseHeader × CkptState × List Ev :=
  let metadataInvalid := hdr.metadataPageRange.startPageIdx == INVALID_PAGE_IDX
  let catalogChanged := s.catalog.changedFlag
  let pageManagerChanged := s.pm.changed
  if metadataInvalid || hasStorageChanges || catalogChanged || pageManagerChanged then
    let freed := hdr.freeMetadataPageRange s.pm
    let ser := serializeMetadata { s with pm := freed.1 }
    ({ hdr with metadataPageRange := ser.1 }, ser.2.1, freed.2 ++ ser.2.2)
  else
    (hdr, s, [])

/-- Embeds `Checkpointer::serializeCatalogAndMetadata`
(checkpointer.cpp lines 121-156): the catalog phase followed by the
metadata phase on the updated header. -/
def serializeCatalogAndMetadata (hdr : DatabaseHeader) (hasStorageChanges : Bool)
    (s : CkptState) : DatabaseHeader × CkptState × List Ev :=
  let c := catalogPhase hdr s
  let m := metadataPhase c.1 hasStorageChanges c.2.1
  (m.1, m.2.1, c.2.2 ++ m.2.2)

/-- Embeds `Checkpointer::writeDatabaseHeader`
(checkpointer.cpp lines 158-176): serialize the updated header into a shadow
copy of the fixed header page (created with skip-read of the original), then
replace the in-memory header object with the new version. The on-disk pages
are untouched. -/
def writeDatabaseHeader (s : CkptState) (header : DatabaseHeader) :
    CkptState × List Ev :=
  ({ s with
       shadow := s.shadow.stageWrite DB_HEADER_PAGE_IDX true
         (PageContent.headerPage header),
       header := header },
   [Ev.writeHeaderShadow])

/-- Embeds `Checkpointer::logCheckpointAndApplyShadowPages`
(checkpointer.cpp lines 178-195) as seen from the in-process state: flush
the shadow file, log and flush the WAL checkpoint record, apply the shadow
pages onto their original locations in the database file, then clear the
WAL and the shadow file. The durable crash-step semantics of this sequence
is modelled separately in the `Crash` namespace. -/
def logCheckpointAndApplyShadowPages (s : CkptState) : CkptState × List Ev :=
  ({ s with
       diskPages := applyShadowEntries s.shadow.staged s.diskPages,
       wal := { fileSize := 0, hasCheckpointRecord := false },
       shadow := ⟨[]⟩ },
   [Ev.flushShadowFile, Ev.logCheckpointWAL, Ev.applyShadowEv,
    Ev.clearWAL, Ev.clearShadowFile])

/-- Embeds the non-skipped tail of `Checkpointer::writeCheckpoint`
(checkpointer.cpp lines 94-112): serialize catalog and metadata, write the
header shadow, log the checkpoint and apply shadow pages, finalize the
checkpoint and prune the eviction queue, then reset the catalog and
page-manager versions and the WAL and shadow file. -/
def writeCheckpointFull (databaseHeader : DatabaseHeader)
    (hasStorageChanges : Bool) (s1 : CkptState) : CkptState × List Ev :=
  let scm := serializeCatalogAndMetadata databaseHeader hasStorageChanges s1
  let wh := writeDatabaseHeader scm.2.1 scm.1
  let la := logCheckpointAndApplyShadowPages wh.1
  let s5 := { la.1 with
    catalog := { la.1.catalog with changedFlag := false },
    pm := { la.1.pm with changed := false, freedThisCheckpoint := [] } }
  (s5, [Ev.flushStorage] ++ scm.2.2 ++ wh.2 ++ la.2 ++
    [Ev.finalizeCkpt, Ev.removeEvicted])

/-- Embeds `Checkpointer::writeCheckpoint` (checkpointer.cpp lines 65-113):
return immediately for an in-memory database; checkpoint storage; skip
entirely when there are no storage, catalog, or metadata changes; otherwise
run the full checkpoint tail. -/
def writeCheckpoint (s : CkptState) : CkptState × List Ev :=
  if s.isInMemory then (s, [])
  else
    let databaseHeader := s.header
    let cs := checkpointStorage s
    let hasStorageChanges := cs.1
    let s1 := cs.2
    let hasCatalogChanges :=
      (databaseHeader.catalogPageRange.startPageIdx == INVALID_PAGE_IDX) ||
        s1.catalog.changedFlag
    let hasMetadataChanges :=
      (databaseHeader.metadataPageRange.startPageIdx == INVALID_PAGE_IDX) ||
        hasStorageChanges || s1.catalog.changedFlag || s1.pm.changed
    if !hasStorageChanges && !hasCatalogChanges && !hasMetadataChanges then
      (s1, [Ev.flushStorage])
    else
      writeCheckpointFull databaseHeader hasStorageChanges s1

/-- Embeds `Checkpointer::rollback` (checkpointer.cpp lines 197-205): a
no-op for an in-memory database; otherwise un-free any pages tentatively
freed by this checkpoint attempt (the body of
`StorageManager::rollbackCheckpoint` is modelled from the spec, as its
source file is not among the sampled sources). -/
def rollback (s : CkptState) : CkptState :=
  if s.isInMemory then s
  else { s with pm := s.pm.rollbackFrees }

/-- The configuration and WAL inputs consulted by `canAutoCheckpoint`. -/
structure AutoCkptContext where
  isInMemory : Bool
  autoCheckpoint : Bool
  checkpointThreshold : Nat
  walFileSize : Nat
deriving DecidableEq, Repr

/-- The transaction inputs consulted by `canAutoCheckpoint`. -/
structure TransactionM where
  isRecovery : Bool
  localWALSize : Nat
deriving DecidableEq, Repr

/-- Embeds `Checkpointer::canAutoCheckpoint`
(checkpointer.cpp lines 207-222): false for an in-memory database, false
when auto-checkpoint is disabled, false for a recovery transaction;
otherwise true exactly when the transaction's local WAL size plus the
on-disk WAL file size exceeds the configured threshold. -/
def canAutoCheckpoint (c : AutoCkptContext) (t : TransactionM) : Bool :=
  if c.isInMemory then false
  else if !c.autoCheckpoint then false
  else if t.isRecovery then false
  else decide (c.checkpointThreshold < t.localWALSize + c.walFileSize)

/-- Observable events emitted on the recovery read path. -/
inductive ReadEv where
  | deserializeHeaderEv
  | seekToByte (off : Nat)
  | deserializeCatalogEv
  | deserializeStorageMetadataEv
  | deserializeAllocatorEv
  | writePage (idx : Nat)
deriving DecidableEq, Repr

/-- Embeds the body of `Checkpointer::readCheckpoint(context, catalog,
storageManager)` (checkpointer.cpp lines 253-306): deserialize the header
from the start of the file; if the catalog page range is invalid the
database is empty and nothing further is read; otherwise seek to the
catalog range's start page and deserialize the catalog, then seek to the
metadata range's start page and deserialize the storage metadata followed
immediately by the page manager's own state; in every case the recovered
header is installed as the live in-memory header (the second component). -/
def readCheckpointBody (hdr : DatabaseHeader) : List ReadEv × DatabaseHeader :=
  if hdr.catalogPageRange.startPageIdx != INVALID_PAGE_IDX then
    ([ReadEv.deserializeHeaderEv,
      ReadEv.seekToByte (hdr.catalogPageRange.startPageIdx * KUZU_PAGE_SIZE),
      ReadEv.deserializeCatalogEv,
      ReadEv.seekToByte (hdr.metadataPageRange.startPageIdx * KUZU_PAGE_SIZE),
      ReadEv.deserializeStorageMetadataEv,
      ReadEv.deserializeAllocatorEv],
     hdr)
  else
    ([ReadEv.deserializeHeaderEv], hdr)

/-- Embeds the outer `Checkpointer::readCheckpoint()`
(checkpointer.cpp lines 224-251): the read path runs only when the database
is not in-memory and the data file already has pages. -/
def readCheckpoint (isInMemory : Bool) (numPages : Nat) (hdr : DatabaseHeader) :
    Option (List ReadEv × DatabaseHeader) :=
  if !isInMemory && decide (0 < numPages) then some (readCheckpointBody hdr)
  else none

end Checkpointer

/-- Collects the free-list snapshots serialized by the allocator along a
trace. -/
def allocatorSnapshots : List Ev → List (List Nat)
  | [] => []
  | Ev.serializeAllocatorToWriter snap :: rest => snap :: allocatorSnapshots rest
  | _ :: rest => allocatorSnapshots rest

/-- True when the trace contains a page allocation. -/
def hasAllocEv (tr : List Ev) : Bool :=
  tr.any fun e =>
    match e with
    | Ev.allocateRange _ _ => true
    | _ => false

/-- Outcome of the best-effort checkpoint attempted while closing a
database: success, or one of the three kinds of exception the destructor
catches. -/
inductive CkptOutcome where
  | ok
  | exnKuzu
  | exnStd
  | exnUnknown
deriving DecidableEq, Repr

/-- Observable result of running the database destructor. -/
structure CloseResult where
  checkpointAttempted : Bool
  errorReported : Bool
  exceptionPropagated : Bool
  isDatabaseClosed : Bool
deriving DecidableEq, Repr

/-- Embeds `Database::~Database` (database.cpp lines 206-241): a checkpoint
is attempted only when the database is not read-only and
forceCheckpointOnClose is configured; every exception thrown by the attempt
is caught and reported; the lifecycle flag is set to closed in every case
and no exception propagates out of the destructor. -/
def databaseDestructor (readOnly forceCheckpointOnClose : Bool)
    (outcome : CkptOutcome) : CloseResult :=
  if !readOnly && forceCheckpointOnClose then
    match outcome with
    | CkptOutcome.ok =>
        { checkpointAttempted := true, errorReported := false,
          exceptionPropagated := false, isDatabaseClosed := true }
    | _ =>
        { checkpointAttempted := true, errorReported := true,
          exceptionPropagated := false, isDatabaseClosed := true }
  else
    { checkpointAttempted := false, errorReported := false,
      exceptionPropagated := false, isDatabaseClosed := true }

namespace Crash

/-- The durable on-disk state: the database file's pages, the durable
content of the shadow file, and whether the WAL durably contains the
checkpoint record. -/
structure DiskState where
  dbPages : Nat → PageContent
  shadowFilePages : List (Nat × PageContent)
  walCheckpointMarker : Bool

/-- One atomic durable step of `logCheckpointAndApplyShadowPages`
(checkpointer.cpp lines 178-195): flushing one staged page to the shadow
file, appending and flushing the WAL checkpoint record, copying one staged
page onto its original location, truncating the WAL, clearing the shadow
file. -/
inductive MicroStep where
  | flushShadowEntry (idx : Nat) (c : PageContent)
  | logMarker
  | applyEntry (idx : Nat) (c : PageContent)
  | clearWALStep
  | clearShadowStep
deriving DecidableEq, Repr

/-- Effect of one atomic durable step. -/
def execStep (st : DiskState) : MicroStep → DiskState
  | MicroStep.flushShadowEntry idx c =>
      { st with shadowFilePages := st.shadowFilePages ++ [(idx, c)] }
  | MicroStep.logMarker => { st with walCheckpointMarker := true }
  | MicroStep.applyEntry idx c =>
      { st with dbPages := fun q => if q = idx then c else st.dbPages q }
  | MicroStep.clearWALStep => { st with walCheckpointMarker := false }
  | MicroStep.clearShadowStep => { st with shadowFilePages := [] }

/-- The durable step sequence of `logCheckpointAndApplyShadowPages`, in
source order (checkpointer.cpp lines 178-195): flush every staged shadow
page, append and flush the WAL checkpoint record, apply every staged page
onto its original location, clear the WAL, clear the shadow file. -/
def stepsOf (L : List (Nat × PageContent)) : List MicroStep :=
  L.map (fun e => MicroStep.flushShadowEntry e.1 e.2) ++ [MicroStep.logMarker] ++
    L.map (fun e => MicroStep.applyEntry e.1 e.2) ++
    [MicroStep.clearWALStep, MicroStep.clearShadowStep]

/-- The durable state at the start of `logCheckpointAndApplyShadowPages`:
shadow file not yet durably flushed, no checkpoint record in the WAL. -/
def initState (d0 : Nat → PageContent) : DiskState :=
  { dbPages := d0, shadowFilePages := [], walCheckpointMarker := false }

/-- The durable state after the first `k` atomic steps; a crash at point `k`
leaves exactly this state. -/
def runUpTo (d0 : Nat → PageContent) (L : List (Nat × PageContent)) (k : Nat) :
    DiskState :=
  ((stepsOf L).take k).foldl execStep (initState d0)

/-- Applying a list of (page index, content) pairs onto the database file in
order. -/
def applyList : List (Nat × PageContent) → (Nat → PageContent) → Nat → PageContent
  | [], d => d
  | e :: rest, d => applyList rest (fun q => if q = e.1 then e.2 else d q)

/-- Modelled from the spec (§3 WAL, §4.4; and the source comment at
checkpointer.cpp lines 184-188): recovery on reopen replays the WAL; if the
durable WAL contains the checkpoint record, the staged pages in the durable
shadow file are applied onto their original locations, completing the
checkpoint; otherwise the WAL and shadow file are discarded and the
database file is read as it stands. The result is the database file visible
after reopening. -/
def recover (st : DiskState) : Nat → PageContent :=
  if st.walCheckpointMarker then applyList st.shadowFilePages st.dbPages
  else st.dbPages

end Crash

/-- A concrete database file with opaque data on every page, used to
instantiate theorems at concrete inputs. -/
def sampleDisk : Nat → PageContent := fun _ => PageContent.dataPage 0

/-- A concrete header with valid catalog and metadata page ranges. -/
def sampleHeader : DatabaseHeader :=
  { catalogPageRange := ⟨10, 2⟩, metadataPageRange := ⟨12, 3⟩ }

/-- A concrete durable checkpointer state. -/
def sampleState : CkptState :=
  { isInMemory := false
    header := sampleHeader
    catalog := { changedFlag := true, numSerializedPages := 2 }
    pm := { numPages := 20, freeList := [5, 6], freedThisCheckpoint := [], changed := false }
    shadow := ⟨[]⟩
    wal := { fileSize := 0, hasCheckpointRecord := false }
    storageDirty := false
    metadataNumPages := 1
    diskPages := sampleDisk }

/-- A concrete quiescent durable state: nothing changed since the last
checkpoint and both header ranges are valid. -/
def quietState : CkptState :=
  { sampleState with catalog := { changedFlag := false, numSerializedPages := 2 } }

/-- A concrete in-memory checkpointer state. -/
def memState : CkptState := { sampleState with isInMemory := true }

end Kuzu

namespace Kuzu

/-! ## Theorems -/

/-- C7: `canAutoCheckpoint` returns false for an in-memory database, false
when auto-checkpoint is disabled in configuration, and false for a recovery
transaction, each regardless of WAL sizes; otherwise, with threshold `K`, it
returns false while the transaction's local WAL size plus the on-disk WAL
file size is at most `K` and true exactly when that sum exceeds `K`. -/
theorem canAutoCheckpoint_characterization (c : Checkpointer.AutoCkptContext)
    (t : Checkpointer.TransactionM) :
    Checkpointer.canAutoCheckpoint c t =
      (!c.isInMemory && c.autoCheckpoint && !t.isRecovery &&
        decide (c.checkpointThreshold < t.localWALSize + c.walFileSize)) := by
  unfold Checkpointer.canAutoCheckpoint
  cases hm : c.isInMemory <;> cases ha : c.autoCheckpoint <;>
    cases hr : t.isRecovery <;> simp [hm, ha, hr]

/-- C9: checkpoint-on-close is best-effort: the destructor attempts a
checkpoint exactly when the database is not read-only and
forceCheckpointOnClose is configured; every exception thrown by the attempt
is caught and reported; the lifecycle flag is always set to closed and no
exception propagates out of the destructor. -/
theorem databaseDestructor_best_effort (ro fc : Bool) (outcome : CkptOutcome) :
    (databaseDestructor ro fc outcome).checkpointAttempted = (!ro && fc) ∧
    (databaseDestructor ro fc outcome).errorReported =
      ((!ro && fc) && decide (outcome ≠ CkptOutcome.ok)) ∧
    (databaseDestructor ro fc outcome).exceptionPropagated = false ∧
    (databaseDestructor ro fc outcome).isDatabaseClosed = true := by
  cases ro <;> cases fc <;> cases outcome <;> simp [databaseDestructor]

/-- C10: for an in-memory database `writeCheckpoint` returns immediately:
the entire checkpoint body is skipped, the state is unchanged and no event
is performed. -/
theorem writeCheckpoint_inMemory_noop (s : CkptState)
    (h : s.isInMemory = true) :
    Checkpointer.writeCheckpoint s = (s, []) := by
  unfold Checkpointer.writeCheckpoint
  simp [h]

/-- Witness for the in-memory no-op at a concrete state. -/
theorem writeCheckpoint_inMemory_noop_witness :
    Checkpointer.writeCheckpoint memState = (memState, []) :=
  writeCheckpoint_inMemory_noop memState rfl

/-- C4: `serializeMetadata` serializes the metadata content into an
in-memory writer, takes the allocator's page estimate on the pre-allocation
state, allocates the metadata pages plus the estimated allocator pages as
one contiguous range, serializes the allocator itself into the same writer,
and finally flushes the writer's contents into the allocated range via the
shadow file — in that order. -/
theorem serializeMetadata_ordering (s : CkptState) :
    (Checkpointer.serializeMetadata s).2.2 =
      [Ev.serializeMetadataToWriter,
       Ev.estimateAllocatorPages s.pm.estimatePagesNeededForSerialize,
       Ev.allocateRange s.pm.numPages
         (s.metadataNumPages + s.pm.estimatePagesNeededForSerialize),
       Ev.serializeAllocatorToWriter s.pm.freeList,
       Ev.flushWriterToShadow s.pm.numPages
         (s.metadataNumPages + s.pm.estimatePagesNeededForSerialize)] ∧
    (Checkpointer.serializeMetadata s).1 =
      ⟨s.pm.numPages, s.metadataNumPages + s.pm.estimatePagesNeededForSerialize⟩ :=
  ⟨rfl, rfl⟩

/-- C2: recovery via `readCheckpoint` on a non-empty, non-in-memory database
deserializes the header from the fixed header page; if the catalog page
range is the invalid sentinel nothing further is read; otherwise it seeks to
the catalog range's start page and deserializes the catalog, then seeks to
the metadata range's start page and deserializes the storage metadata
followed immediately by the page allocator's own state; in every case the
recovered header is installed as the live header, and no write to the
database file is performed. -/
theorem readCheckpoint_characterization (inMem : Bool) (numPages : Nat)
    (hdr : DatabaseHeader) (hmem : inMem = false) (hpages : 0 < numPages) :
    Checkpointer.readCheckpoint inMem numPages hdr =
      some (Checkpointer.readCheckpointBody hdr) ∧
    (hdr.catalogPageRange.startPageIdx ≠ INVALID_PAGE_IDX →
      Checkpointer.readCheckpointBody hdr =
        ([Checkpointer.ReadEv.deserializeHeaderEv,
          Checkpointer.ReadEv.seekToByte
            (hdr.catalogPageRange.startPageIdx * KUZU_PAGE_SIZE),
          Checkpointer.ReadEv.deserializeCatalogEv,
          Checkpointer.ReadEv.seekToByte
            (hdr.metadataPageRange.startPageIdx * KUZU_PAGE_SIZE),
          Checkpointer.ReadEv.deserializeStorageMetadataEv,
          Checkpointer.ReadEv.deserializeAllocatorEv], hdr)) ∧
    (hdr.catalogPageRange.startPageIdx = INVALID_PAGE_IDX →
      Checkpointer.readCheckpointBody hdr =
        ([Checkpointer.ReadEv.deserializeHeaderEv], hdr)) ∧
    (∀ i, Checkpointer.ReadEv.writePage i ∉ (Checkpointer.readCheckpointBody hdr).1) := by
  refine ⟨?_, ?_, ?_, ?_⟩
  · simp [Checkpointer.readCheckpoint, hmem, hpages]
  · intro h
    simp [Checkpointer.readCheckpointBody, h]
  · intro h
    simp [Checkpointer.readCheckpointBody, h]
  · intro i
    unfold Checkpointer.readCheckpointBody
    split <;> simp

/-- Witness for the recovery characterization at a concrete non-empty,
non-in-memory database. -/
theorem readCheckpoint_characterization_witness :
    Checkpointer.readCheckpoint false 5 sampleHeader =
      some (Checkpointer.readCheckpointBody sampleHeader) :=
  (readCheckpoint_characterization false 5 sampleHeader rfl (by decide)).1

/-- C6: `writeDatabaseHeader` serializes the updated header into a shadow
copy of the fixed header page (page 0, created with skip-read of the
original) and replaces the in-memory header object with the new version; the
on-disk pages are not modified by `writeDatabaseHeader` itself — the
database file changes only when the shadow pages are applied. -/
theorem writeDatabaseHeader_frame (s : CkptState) (h : DatabaseHeader)
    (hfresh : DB_HEADER_PAGE_IDX ∉ s.shadow.keys) :
    (Checkpointer.writeDatabaseHeader s h).1.shadow.staged =
      s.shadow.staged ++
        [{ originalPageIdx := DB_HEADER_PAGE_IDX, skipRead := true,
           content := PageContent.headerPage h }] ∧
    (Checkpointer.writeDatabaseHeader s h).1.header = h ∧
    (Checkpointer.writeDatabaseHeader s h).1.diskPages = s.diskPages ∧
    (Checkpointer.logCheckpointAndApplyShadowPages
        (Checkpointer.writeDatabaseHeader s h).1).1.diskPages =
      applyShadowEntries (Checkpointer.writeDatabaseHeader s h).1.shadow.staged
        s.diskPages := by
  refine ⟨?_, rfl, rfl, rfl⟩
  simp [Checkpointer.writeDatabaseHeader, ShadowFile.stageWrite, hfresh]

/-- Witness for the header-write frame property at a concrete state with a
fresh shadow file. -/
theorem writeDatabaseHeader_frame_witness :
    (Checkpointer.writeDatabaseHeader sampleState sampleHeader).1.header =
      sampleHeader :=
  (writeDatabaseHeader_frame sampleState sampleHeader (by decide)).2.1

/-- C8: rollback round-trip: for a durable database, freeing a set of
currently used pages during a checkpoint attempt and then rolling back
restores the allocator's free/used view to exactly what it was before the
free, and clears the tentative-free record; for an in-memory database
rollback is a no-op. -/
theorem rollback_roundtrip (s : CkptState) (S : List Nat)
    (hpre : s.pm.freedThisCheckpoint = [])
    (hused : ∀ p ∈ S, p ∉ s.pm.freeList) :
    (s.isInMemory = false →
      (∀ p,
        p ∈ (Checkpointer.rollback
              { s with pm := s.pm.freePagesOp S }).pm.freeList ↔
          p ∈ s.pm.freeList) ∧
      (Checkpointer.rollback
          { s with pm := s.pm.freePagesOp S }).pm.freedThisCheckpoint = []) ∧
    (s.isInMemory = true →
      Checkpointer.rollback { s with pm := s.pm.freePagesOp S } =
        { s with pm := s.pm.freePagesOp S }) := by
  constructor
  · intro hmem
    constructor
    · intro p
      simp only [Checkpointer.rollback, hmem, if_neg Bool.false_ne_true,
        PageManager.freePagesOp, PageManager.rollbackFrees, hpre,
        List.nil_append, List.mem_filter, List.mem_append, decide_eq_true_iff]
      constructor
      · rintro ⟨hor, hnot⟩
        rcases hor with hfl | hS
        · exact hfl
        · exact absurd hS hnot
      · intro hp
        exact ⟨Or.inl hp, fun hS => hused p hS hp⟩
    · simp [Checkpointer.rollback, hmem, PageManager.freePagesOp,
        PageManager.rollbackFrees]
  · intro hmem
    simp [Checkpointer.rollback, hmem]

/-- Witness for the rollback round-trip at a concrete state and free set. -/
theorem rollback_roundtrip_witness :
    (Checkpointer.rollback
        { sampleState with
            pm := sampleState.pm.freePagesOp [7, 8] }).pm.freedThisCheckpoint = [] :=
  ((rollback_roundtrip sampleState [7, 8] rfl (by decide)).1 rfl).2

/-- Helper: a valid page range's start index does not test equal to the
sentinel. -/
theorem isValid_beq_false (r : PageRange) (h : r.isValid = true) :
    (r.startPageIdx == INVALID_PAGE_IDX) = false := by
  unfold PageRange.isValid at h
  simpa [bne] using h

/-- Helper: a start index that does not test equal to the sentinel makes the
range valid. -/
theorem beq_false_isValid (r : PageRange)
    (h : (r.startPageIdx == INVALID_PAGE_IDX) = false) : r.isValid = true := by
  unfold PageRange.isValid
  simp [bne, h]

/-- Helper: `checkpointStorage` preserves everything except the dirty flag
and the page-manager changed flag, and always leaves storage clean. -/
theorem checkpointStorage_fields (s : CkptState) :
    (Checkpointer.checkpointStorage s).2.isInMemory = s.isInMemory ∧
    (Checkpointer.checkpointStorage s).2.storageDirty = false ∧
    (Checkpointer.checkpointStorage s).2.header = s.header ∧
    (Checkpointer.checkpointStorage s).2.catalog = s.catalog ∧
    (Checkpointer.checkpointStorage s).2.pm.numPages = s.pm.numPages := by
  unfold Checkpointer.checkpointStorage
  split_ifs with h
  · simp
  · simp [Bool.eq_false_iff.mpr h]

/-- Helper: the catalog phase leaves the metadata page range of the header
untouched. -/
theorem catalogPhase_metadataRange (hdr : DatabaseHeader) (s : CkptState) :
    (Checkpointer.catalogPhase hdr s).1.metadataPageRange =
      hdr.metadataPageRange := by
  unfold Checkpointer.catalogPhase DatabaseHeader.updateCatalogPageRange
  split_ifs <;> rfl

/-- Helper: after the catalog phase the header's catalog page range is
valid, provided the allocation frontier is below the sentinel. -/
theorem catalogPhase_catalogRange_valid (hdr : DatabaseHeader) (s : CkptState)
    (hbound : s.pm.numPages < INVALID_PAGE_IDX) :
    (Checkpointer.catalogPhase hdr s).1.catalogPageRange.isValid = true := by
  unfold Checkpointer.catalogPhase
  split_ifs with hc
  · unfold DatabaseHeader.updateCatalogPageRange Checkpointer.serializeCatalog
      PageManager.allocatePageRange
    split_ifs <;>
      (unfold PageRange.isValid
       simp [bne_iff_ne]
       exact Nat.ne_of_lt hbound)
  · have hb : (hdr.catalogPageRange.startPageIdx == INVALID_PAGE_IDX) = false := by
      cases hb : (hdr.catalogPageRange.startPageIdx == INVALID_PAGE_IDX) with
      | false => rfl
      | true => simp [hb] at hc
    exact beq_false_isValid _ hb

/-- Helper: the catalog phase preserves the state fields it does not touch;
the allocation frontier grows by at most the catalog's serialized size. -/
theorem catalogPhase_state_fields (hdr : DatabaseHeader) (s : CkptState) :
    (Checkpointer.catalogPhase hdr s).2.1.isInMemory = s.isInMemory ∧
    (Checkpointer.catalogPhase hdr s).2.1.storageDirty = s.storageDirty ∧
    (Checkpointer.catalogPhase hdr s).2.1.catalog = s.catalog ∧
    (Checkpointer.catalogPhase hdr s).2.1.pm.numPages ≤
      s.pm.numPages + s.catalog.numSerializedPages := by
  unfold Checkpointer.catalogPhase DatabaseHeader.updateCatalogPageRange
    Checkpointer.serializeCatalog PageManager.allocatePageRange
    PageManager.freePageRange
  split_ifs <;> simp [Nat.le_add_right]

/-- Helper: the metadata phase leaves the catalog page range of the header
untouched. -/
theorem metadataPhase_catalogRange (hdr : DatabaseHeader) (hsc : Bool)
    (s : CkptState) :
    (Checkpointer.metadataPhase hdr hsc s).1.catalogPageRange =
      hdr.catalogPageRange := by
  unfold Checkpointer.metadataPhase
  dsimp only
  split_ifs <;> rfl

/-- Helper: after the metadata phase the header's metadata page range is
valid, provided the allocation frontier is below the sentinel. -/
theorem metadataPhase_metadataRange_valid (hdr : DatabaseHeader) (hsc : Bool)
    (s : CkptState) (hbound : s.pm.numPages < INVALID_PAGE_IDX) :
    (Checkpointer.metadataPhase hdr hsc s).1.metadataPageRange.isValid = true := by
  unfold Checkpointer.metadataPhase
  dsimp only
  split_ifs with hc
  · unfold Checkpointer.serializeMetadata PageManager.allocatePageRange
      DatabaseHeader.freeMetadataPageRange PageManager.freePageRange
    split_ifs <;>
      (unfold PageRange.isValid
       simp [bne_iff_ne]
       exact Nat.ne_of_lt hbound)
  · have hb : (hdr.metadataPageRange.startPageIdx == INVALID_PAGE_IDX) = false := by
      cases hb : (hdr.metadataPageRange.startPageIdx == INVALID_PAGE_IDX) with
      | false => rfl
      | true => simp [hb] at hc
    exact beq_false_isValid _ hb

/-- Helper: the metadata phase preserves the state fields it does not
touch. -/
theorem metadataPhase_state_fields (hdr : DatabaseHeader) (hsc : Bool)
    (s : CkptState) :
    (Checkpointer.metadataPhase hdr hsc s).2.1.isInMemory = s.isInMemory ∧
    (Checkpointer.metadataPhase hdr hsc s).2.1.storageDirty = s.storageDirty ∧
    (Checkpointer.metadataPhase hdr hsc s).2.1.catalog = s.catalog := by
  unfold Checkpointer.metadataPhase Checkpointer.serializeMetadata
    PageManager.allocatePageRange DatabaseHeader.freeMetadataPageRange
    PageManager.freePageRange
  dsimp only
  split_ifs <;> simp

/-- Helper: `serializeCatalogAndMetadata` preserves the state fields the
checkpoint body does not touch. -/
theorem scm_state_fields (hdr : DatabaseHeader) (hsc : Bool) (s : CkptState) :
    (Checkpointer.serializeCatalogAndMetadata hdr hsc s).2.1.isInMemory =
      s.isInMemory ∧
    (Checkpointer.serializeCatalogAndMetadata hdr hsc s).2.1.storageDirty =
      s.storageDirty ∧
    (Checkpointer.serializeCatalogAndMetadata hdr hsc s).2.1.catalog =
      s.catalog := by
  obtain ⟨c1, c2, c3, _⟩ := catalogPhase_state_fields hdr s
  obtain ⟨m1, m2, m3⟩ :=
    metadataPhase_state_fields (Checkpointer.catalogPhase hdr s).1 hsc
      (Checkpointer.catalogPhase hdr s).2.1
  exact ⟨m1.trans c1, m2.trans c2, m3.trans c3⟩

/-- Helper: both header ranges are valid after `serializeCatalogAndMetadata`,
provided the frontier plus the catalog's serialized size is below the
sentinel. -/
theorem scm_header_valid (hdr : DatabaseHeader) (hsc : Bool) (s : CkptState)
    (hbound : s.pm.numPages + s.catalog.numSerializedPages < INVALID_PAGE_IDX) :
    (Checkpointer.serializeCatalogAndMetadata hdr hsc s).1.catalogPageRange.isValid
        = true ∧
    (Checkpointer.serializeCatalogAndMetadata hdr hsc s).1.metadataPageRange.isValid
        = true := by
  obtain ⟨_, _, _, c4⟩ := catalogPhase_state_fields hdr s
  have hb1 : s.pm.numPages < INVALID_PAGE_IDX :=
    Nat.lt_of_le_of_lt (Nat.le_add_right _ _) hbound
  have hb2 : (Checkpointer.catalogPhase hdr s).2.1.pm.numPages < INVALID_PAGE_IDX :=
    Nat.lt_of_le_of_lt c4 hbound
  constructor
  · have := metadataPhase_catalogRange (Checkpointer.catalogPhase hdr s).1 hsc
      (Checkpointer.catalogPhase hdr s).2.1
    unfold Checkpointer.serializeCatalogAndMetadata
    rw [this]
    exact catalogPhase_catalogRange_valid hdr s hb1
  · exact metadataPhase_metadataRange_valid _ hsc _ hb2

/-- Helper: projections of the full checkpoint tail: the version flags are
reset, untouched fields are preserved, and the installed header is the one
produced by `serializeCatalogAndMetadata`. -/
theorem writeCheckpointFull_fields (hdr : DatabaseHeader) (hsc : Bool)
    (s1 : CkptState) :
    (Checkpointer.writeCheckpointFull hdr hsc s1).1.isInMemory = s1.isInMemory ∧
    (Checkpointer.writeCheckpointFull hdr hsc s1).1.storageDirty = s1.storageDirty ∧
    (Checkpointer.writeCheckpointFull hdr hsc s1).1.catalog.changedFlag = false ∧
    (Checkpointer.writeCheckpointFull hdr hsc s1).1.pm.changed = false ∧
    (Checkpointer.writeCheckpointFull hdr hsc s1).1.header =
      (Checkpointer.serializeCatalogAndMetadata hdr hsc s1).1 := by
  obtain ⟨h1, h2, _⟩ := scm_state_fields hdr hsc s1
  unfold Checkpointer.writeCheckpointFull Checkpointer.writeDatabaseHeader
    Checkpointer.logCheckpointAndApplyShadowPages
  exact ⟨h1, h2, rfl, rfl, rfl⟩

/-- Helper: the full checkpoint tail always emits more than the storage
flush event; in particular it writes the header shadow. -/
theorem writeCheckpointFull_trace (hdr : DatabaseHeader) (hsc : Bool)
    (s1 : CkptState) :
    (Checkpointer.writeCheckpointFull hdr hsc s1).2 ≠ [Ev.flushStorage] := by
  unfold Checkpointer.writeCheckpointFull Checkpointer.writeDatabaseHeader
    Checkpointer.logCheckpointAndApplyShadowPages
  intro h
  simp at h

/-- Helper: on a quiescent durable state — storage clean, catalog and page
manager unchanged, both header ranges valid — `writeCheckpoint` takes the
skip branch: the state is returned unchanged and only the storage flush
check is performed. -/
theorem writeCheckpoint_skip_of_quiet (s : CkptState)
    (hmem : s.isInMemory = false) (h1 : s.storageDirty = false)
    (h2 : s.catalog.changedFlag = false) (h3 : s.pm.changed = false)
    (h4 : s.header.catalogPageRange.isValid = true)
    (h5 : s.header.metadataPageRange.isValid = true) :
    Checkpointer.writeCheckpoint s = (s, [Ev.flushStorage]) := by
  have e4 := isValid_beq_false _ h4
  have e5 := isValid_beq_false _ h5
  unfold Checkpointer.writeCheckpoint Checkpointer.checkpointStorage
  simp [hmem, h1, h2, h3, e4, e5]

/-- Helper: `writeCheckpoint` on a durable database either establishes the
quiescence conditions and takes the skip branch, or runs the full
checkpoint tail. -/
theorem writeCheckpoint_cases (s : CkptState) (hmem : s.isInMemory = false) :
    (s.storageDirty = false ∧ s.catalog.changedFlag = false ∧
      s.pm.changed = false ∧ s.header.catalogPageRange.isValid = true ∧
      s.header.metadataPageRange.isValid = true ∧
      Checkpointer.writeCheckpoint s = (s, [Ev.flushStorage])) ∨
    Checkpointer.writeCheckpoint s =
      Checkpointer.writeCheckpointFull s.header
        (Checkpointer.checkpointStorage s).1
        (Checkpointer.checkpointStorage s).2 := by
  cases h1 : s.storageDirty with
  | true =>
    right
    unfold Checkpointer.writeCheckpoint Checkpointer.checkpointStorage
    simp [hmem, h1]
  | false =>
    cases h2 : s.catalog.changedFlag <;> cases h3 : s.pm.changed <;>
      cases h4 : (s.header.catalogPageRange.startPageIdx == INVALID_PAGE_IDX) <;>
      cases h5 : (s.header.metadataPageRange.startPageIdx == INVALID_PAGE_IDX)
    case false.false.false.false =>
      exact Or.inl ⟨rfl, rfl, rfl, beq_false_isValid _ h4, beq_false_isValid _ h5,
        writeCheckpoint_skip_of_quiet s hmem h1 h2 h3
          (beq_false_isValid _ h4) (beq_false_isValid _ h5)⟩
    all_goals
      right
      unfold Checkpointer.writeCheckpoint Checkpointer.checkpointStorage
      simp [hmem, h1, h2, h3, h4, h5]

/-- Helper: folding the flush micro-steps of a list of staged pages appends
them to the durable shadow file and touches nothing else. -/
theorem crash_foldl_flush (M : List (Nat × PageContent)) (st : Crash.DiskState) :
    (M.map (fun e => Crash.MicroStep.flushShadowEntry e.1 e.2)).foldl
        Crash.execStep st =
      { st with shadowFilePages := st.shadowFilePages ++ M } := by
  induction M generalizing st with
  | nil => simp
  | cons e rest ih =>
      simp only [List.map_cons, List.foldl_cons, Crash.execStep, ih,
        List.append_assoc, List.singleton_append]

/-- Helper: folding the apply micro-steps of a list of staged pages applies
them to the database file and touches nothing else. -/
theorem crash_foldl_apply (M : List (Nat × PageContent)) (st : Crash.DiskState) :
    (M.map (fun e => Crash.MicroStep.applyEntry e.1 e.2)).foldl
        Crash.execStep st =
      { st with dbPages := Crash.applyList M st.dbPages } := by
  induction M generalizing st with
  | nil => simp [Crash.applyList]
  | cons e rest ih =>
      simp only [List.map_cons, List.foldl_cons, Crash.execStep, ih,
        Crash.applyList]

/-- Helper: applying staged pages does not change a page that none of them
targets. -/
theorem crash_applyList_not_mem (M : List (Nat × PageContent))
    (d : Nat → PageContent) (p : Nat) (hp : p ∉ M.map Prod.fst) :
    Crash.applyList M d p = d p := by
  induction M generalizing d with
  | nil => rfl
  | cons e rest ih =>
      simp only [List.map_cons, List.mem_cons, not_or] at hp
      simp only [Crash.applyList]
      rw [ih _ hp.2]
      simp [hp.1]

/-- Helper: applying staged pages only reads the previous content of pages
it does not target. -/
theorem crash_applyList_congr (M : List (Nat × PageContent))
    (d d' : Nat → PageContent) (p : Nat)
    (h : ∀ q, q ∉ M.map Prod.fst → d q = d' q) :
    Crash.applyList M d p = Crash.applyList M d' p := by
  induction M generalizing d d' with
  | nil => exact h p (by simp)
  | cons e rest ih =>
      simp only [Crash.applyList]
      apply ih
      intro q hq
      by_cases hqe : q = e.1
      · simp [hqe]
      · simp only [if_neg hqe]
        refine h q ?_
        simp only [List.map_cons, List.mem_cons, not_or]
        exact ⟨hqe, hq⟩

/-- Helper: re-applying a full list of staged pages on top of any prefix of
the same application yields the same database file as applying the full
list once. -/
theorem crash_applyList_overwrite (L M : List (Nat × PageContent))
    (hsub : ∀ q, q ∈ M.map Prod.fst → q ∈ L.map Prod.fst)
    (d : Nat → PageContent) (p : Nat) :
    Crash.applyList L (Crash.applyList M d) p = Crash.applyList L d p := by
  apply crash_applyList_congr
  intro q hq
  exact crash_applyList_not_mem M d q (fun hm => hq (hsub q hm))

/-- C1: crash safety of `logCheckpointAndApplyShadowPages`: the operation
performs, in order, the shadow-file flush, the durable WAL checkpoint
record, the application of every staged page onto its original location,
and the clearing of the WAL and shadow file; for a crash at any step
boundary before the checkpoint record is durable, recovery reproduces the
pre-checkpoint database file exactly, and for a crash at any step boundary
once the record is durable — including mid-application and after the
clears — recovery reproduces the fully-applied post-checkpoint file. -/
theorem logCheckpoint_crash_safety (d0 : Nat → PageContent)
    (L : List (Nat × PageContent)) (k : Nat) (p : Nat) :
    Crash.recover (Crash.runUpTo d0 L k) p =
      if k ≤ L.length then d0 p else Crash.applyList L d0 p := by
  unfold Crash.runUpTo Crash.stepsOf Crash.initState
  by_cases h1 : k ≤ L.length
  · rw [if_pos h1]
    rw [List.take_append_eq_append_take, List.take_append_eq_append_take,
      List.take_append_eq_append_take]
    have hx1 : k -
        (List.map (fun e => Crash.MicroStep.flushShadowEntry e.1 e.2) L ++
          [Crash.MicroStep.logMarker] ++
          List.map (fun e => Crash.MicroStep.applyEntry e.1 e.2) L).length = 0 := by
      simp only [List.length_append, List.length_map, List.length_singleton]
      omega
    have hx2 : k -
        (List.map (fun e => Crash.MicroStep.flushShadowEntry e.1 e.2) L ++
          [Crash.MicroStep.logMarker]).length = 0 := by
      simp only [List.length_append, List.length_map, List.length_singleton]
      omega
    have hx3 : k -
        (List.map (fun e => Crash.MicroStep.flushShadowEntry e.1 e.2) L).length = 0 := by
      simp only [List.length_map]
      omega
    rw [hx1, hx2, hx3, List.take_zero, List.take_zero, List.take_zero,
      List.append_nil, List.append_nil, List.append_nil, ← List.map_take,
      crash_foldl_flush]
    simp [Crash.recover]
  · rw [if_neg h1]
    push_neg at h1
    by_cases h2 : k ≤ 2 * L.length + 1
    · obtain ⟨j, hj, rfl⟩ : ∃ j, j ≤ L.length ∧ k = L.length + 1 + j :=
        ⟨k - (L.length + 1), by omega, by omega⟩
      rw [List.take_append_eq_append_take, List.take_append_eq_append_take,
        List.take_append_eq_append_take]
      have hx1 : L.length + 1 + j -
          (List.map (fun e => Crash.MicroStep.flushShadowEntry e.1 e.2) L ++
            [Crash.MicroStep.logMarker] ++
            List.map (fun e => Crash.MicroStep.applyEntry e.1 e.2) L).length = 0 := by
        simp only [List.length_append, List.length_map, List.length_singleton]
        omega
      have hx2 : L.length + 1 + j -
          (List.map (fun e => Crash.MicroStep.flushShadowEntry e.1 e.2) L ++
            [Crash.MicroStep.logMarker]).length = j := by
        simp only [List.length_append, List.length_map, List.length_singleton]
        omega
      have hx3 : L.length + 1 + j -
          (List.map (fun e => Crash.MicroStep.flushShadowEntry e.1 e.2) L).length =
            1 + j := by
        simp only [List.length_map]
        omega
      rw [hx1, List.take_zero, List.append_nil, hx2, hx3]
      rw [List.take_of_length_le
        (by simp only [List.length_map]; omega :
          (List.map (fun e => Crash.MicroStep.flushShadowEntry e.1 e.2) L).length ≤
            L.length + 1 + j)]
      rw [List.take_of_length_le
        (by simp only [List.length_singleton]; omega :
          ([Crash.MicroStep.logMarker] : List Crash.MicroStep).length ≤ 1 + j)]
      rw [← List.map_take]
      rw [List.foldl_append, List.foldl_append, crash_foldl_flush]
      simp only [List.foldl_cons, List.foldl_nil, Crash.execStep]
      rw [crash_foldl_apply]
      simp only [Crash.recover, List.nil_append, if_pos]
      exact crash_applyList_overwrite L (L.take j)
        (fun q hq => by
          rcases List.mem_map.mp hq with ⟨e, he, rfl⟩
          exact List.mem_map.mpr ⟨e, List.take_subset _ _ he, rfl⟩) d0 p
    · push_neg at h2
      by_cases h3 : k = 2 * L.length + 2
      · subst h3
        rw [List.take_append_eq_append_take, List.take_append_eq_append_take,
          List.take_append_eq_append_take]
        have hx1 : 2 * L.length + 2 -
            (List.map (fun e => Crash.MicroStep.flushShadowEntry e.1 e.2) L ++
              [Crash.MicroStep.logMarker] ++
              List.map (fun e => Crash.MicroStep.applyEntry e.1 e.2) L).length = 1 := by
          simp only [List.length_append, List.length_map, List.length_singleton]
          omega
        have hx2 : 2 * L.length + 2 -
            (List.map (fun e => Crash.MicroStep.flushShadowEntry e.1 e.2) L ++
              [Crash.MicroStep.logMarker]).length = L.length + 1 := by
          simp only [List.length_append, List.length_map, List.length_singleton]
          omega
        have hx3 : 2 * L.length + 2 -
            (List.map (fun e => Crash.MicroStep.flushShadowEntry e.1 e.2) L).length =
              L.length + 2 := by
          simp only [List.length_map]
          omega
        rw [hx1, hx2, hx3]
        rw [List.take_of_length_le
          (by simp only [List.length_map]; omega :
            (List.map (fun e => Crash.MicroStep.flushShadowEntry e.1 e.2) L).length ≤
              2 * L.length + 2)]
        rw [List.take_of_length_le
          (by simp only [List.length_singleton]; omega :
            ([Crash.MicroStep.logMarker] : List Crash.MicroStep).length ≤
              L.length + 2)]
        rw [List.take_of_length_le
          (by simp only [List.length_map]; omega :
            (List.map (fun e => Crash.MicroStep.applyEntry e.1 e.2) L).length ≤
              L.length + 1)]
        rw [List.foldl_append, List.foldl_append, List.foldl_append,
          crash_foldl_flush]
        simp only [List.take_succ_cons, List.take_zero, List.foldl_cons,
          List.foldl_nil, Crash.execStep]
        rw [crash_foldl_apply]
        simp [Crash.recover]
      · rw [List.take_of_length_le
          (by simp only [List.length_append, List.length_map,
                List.length_singleton, List.length_cons, List.length_nil]
              omega :
            (List.map (fun e => Crash.MicroStep.flushShadowEntry e.1 e.2) L ++
              [Crash.MicroStep.logMarker] ++
              List.map (fun e => Crash.MicroStep.applyEntry e.1 e.2) L ++
              [Crash.MicroStep.clearWALStep,
               Crash.MicroStep.clearShadowStep]).length ≤ k)]
        rw [List.foldl_append, List.foldl_append, List.foldl_append,
          crash_foldl_flush]
        simp only [List.foldl_cons, List.foldl_nil, Crash.execStep]
        rw [crash_foldl_apply]
        simp [Crash.recover]

/-- C3: change-detection short-circuit: `writeCheckpoint` on a durable
database skips the checkpoint entirely — emitting nothing beyond the
storage flush check: no serialization, no header rewrite, no WAL checkpoint
record, no page allocation — exactly when storage reported no changes, the
catalog and the page allocator report unchanged, and the current header
already has valid catalog and metadata page ranges; the skip leaves the
state unchanged, and a second `writeCheckpoint` with no intervening
mutation performs zero page allocations. -/
theorem writeCheckpoint_skip_characterization (s : CkptState)
    (hmem : s.isInMemory = false)
    (hbound : s.pm.numPages + s.catalog.numSerializedPages < INVALID_PAGE_IDX) :
    ((Checkpointer.writeCheckpoint s).2 = [Ev.flushStorage] ↔
      (s.storageDirty = false ∧ s.catalog.changedFlag = false ∧
        s.pm.changed = false ∧ s.header.catalogPageRange.isValid = true ∧
        s.header.metadataPageRange.isValid = true)) ∧
    ((s.storageDirty = false ∧ s.catalog.changedFlag = false ∧
        s.pm.changed = false ∧ s.header.catalogPageRange.isValid = true ∧
        s.header.metadataPageRange.isValid = true) →
      (Checkpointer.writeCheckpoint s).1 = s) ∧
    hasAllocEv (Checkpointer.writeCheckpoint
        (Checkpointer.writeCheckpoint s).1).2 = false := by
  rcases writeCheckpoint_cases s hmem with hq | hfull
  · obtain ⟨q1, q2, q3, q4, q5, qeq⟩ := hq
    have hs1 : (Checkpointer.writeCheckpoint s).1 = s := by rw [qeq]
    refine ⟨?_, fun _ => hs1, ?_⟩
    · rw [qeq]
      exact ⟨fun _ => ⟨q1, q2, q3, q4, q5⟩, fun _ => rfl⟩
    · rw [hs1, qeq]
      rfl
  · obtain ⟨cs1, cs2, cs3, cs4, cs5⟩ := checkpointStorage_fields s
    obtain ⟨f1, f2, f3, f4, f5⟩ :=
      writeCheckpointFull_fields s.header (Checkpointer.checkpointStorage s).1
        (Checkpointer.checkpointStorage s).2
    have hbound' :
        (Checkpointer.checkpointStorage s).2.pm.numPages +
          (Checkpointer.checkpointStorage s).2.catalog.numSerializedPages <
            INVALID_PAGE_IDX := by
      rw [cs5, cs4]
      exact hbound
    obtain ⟨v1, v2⟩ :=
      scm_header_valid s.header (Checkpointer.checkpointStorage s).1
        (Checkpointer.checkpointStorage s).2 hbound'
    have e1 : (Checkpointer.writeCheckpoint s).1.isInMemory = false := by
      rw [hfull, f1, cs1, hmem]
    have e2 : (Checkpointer.writeCheckpoint s).1.storageDirty = false := by
      rw [hfull, f2, cs2]
    have e3 : (Checkpointer.writeCheckpoint s).1.catalog.changedFlag = false := by
      rw [hfull]
      exact f3
    have e4 : (Checkpointer.writeCheckpoint s).1.pm.changed = false := by
      rw [hfull]
      exact f4
    have e5 :
        (Checkpointer.writeCheckpoint s).1.header.catalogPageRange.isValid = true := by
      rw [hfull, f5]
      exact v1
    have e6 :
        (Checkpointer.writeCheckpoint s).1.header.metadataPageRange.isValid = true := by
      rw [hfull, f5]
      exact v2
    have hsecond := writeCheckpoint_skip_of_quiet _ e1 e2 e3 e4 e5 e6
    have hnotquiet :
        ¬(s.storageDirty = false ∧ s.catalog.changedFlag = false ∧
          s.pm.changed = false ∧ s.header.catalogPageRange.isValid = true ∧
          s.header.metadataPageRange.isValid = true) := by
      rintro ⟨r1, r2, r3, r4, r5⟩
      have hskip := writeCheckpoint_skip_of_quiet s hmem r1 r2 r3 r4 r5
      have heq := congrArg Prod.snd (hfull.symm.trans hskip)
      exact writeCheckpointFull_trace _ _ _ heq
    refine ⟨?_, fun hr => absurd hr hnotquiet, ?_⟩
    · constructor
      · intro htr
        rw [hfull] at htr
        exact absurd htr (writeCheckpointFull_trace _ _ _)
      · intro hr
        exact absurd hr hnotquiet
    · rw [hsecond]
      rfl

/-- Witness for the change-detection short-circuit at a concrete quiescent
state: the second checkpoint performs zero page allocations. -/
theorem writeCheckpoint_skip_characterization_witness :
    hasAllocEv (Checkpointer.writeCheckpoint
        (Checkpointer.writeCheckpoint quietState).1).2 = false :=
  (writeCheckpoint_skip_characterization quietState rfl (by decide)).2.2

/-- C5: whenever a checkpoint re-serializes metadata — that is, exactly when
the metadata range is invalid, storage changed, the catalog changed, or the
page allocator changed — the previous metadata page range is freed through
the allocator before `serializeMetadata` runs, so that every freed page is
contained in the free-list snapshot the allocator serializes; when none of
those conditions holds, metadata is not re-serialized and the header and
state are untouched. -/
theorem metadataPhase_frees_before_serializing (hdr : DatabaseHeader)
    (hsc : Bool) (s : CkptState) :
    (((hdr.metadataPageRange.startPageIdx == INVALID_PAGE_IDX) || hsc ||
        s.catalog.changedFlag || s.pm.changed) = true →
      (Checkpointer.metadataPhase hdr hsc s).2.2 =
          (hdr.freeMetadataPageRange s.pm).2 ++
            (Checkpointer.serializeMetadata
              { s with pm := (hdr.freeMetadataPageRange s.pm).1 }).2.2 ∧
        (hdr.metadataPageRange.isValid = true →
          allocatorSnapshots (Checkpointer.metadataPhase hdr hsc s).2.2 ≠ [] ∧
          ∀ snap ∈ allocatorSnapshots (Checkpointer.metadataPhase hdr hsc s).2.2,
            ∀ p ∈ hdr.metadataPageRange.pages, p ∈ snap)) ∧
    (((hdr.metadataPageRange.startPageIdx == INVALID_PAGE_IDX) || hsc ||
        s.catalog.changedFlag || s.pm.changed) = false →
      Checkpointer.metadataPhase hdr hsc s = (hdr, s, [])) := by
  constructor
  · intro hcond
    have htr :
        (Checkpointer.metadataPhase hdr hsc s).2.2 =
          (hdr.freeMetadataPageRange s.pm).2 ++
            (Checkpointer.serializeMetadata
              { s with pm := (hdr.freeMetadataPageRange s.pm).1 }).2.2 := by
      unfold Checkpointer.metadataPhase
      simp [hcond]
    refine ⟨htr, ?_⟩
    intro hvalid
    rw [htr]
    have hfree : hdr.freeMetadataPageRange s.pm =
        s.pm.freePageRange hdr.metadataPageRange := by
      unfold DatabaseHeader.freeMetadataPageRange
      simp [hvalid]
    rw [hfree]
    simp only [PageManager.freePageRange, Checkpointer.serializeMetadata,
      PageManager.allocatePageRange, allocatorSnapshots, List.cons_append,
      List.nil_append]
    constructor
    · simp [allocatorSnapshots]
    · intro snap hsnap p hp
      simp only [allocatorSnapshots, List.mem_singleton] at hsnap
      subst hsnap
      exact List.mem_append_right _ hp
  · intro hcond
    unfold Checkpointer.metadataPhase
    simp [hcond]

/-- Witness for the metadata free-before-serialize property at a concrete
header and state with changes present. -/
theorem metadataPhase_frees_before_serializing_witness :
    (Checkpointer.metadataPhase sampleHeader true sampleState).2.2 =
      (sampleHeader.freeMetadataPageRange sampleState.pm).2 ++
        (Checkpointer.serializeMetadata
          { sampleState with
              pm := (sampleHeader.freeMetadataPageRange sampleState.pm).1 }).2.2 :=
  ((metadataPhase_frees_before_serializing sampleHeader true sampleState).1
    (by decide)).1

end Kuzu
